import Mathlib

/-!
# WalletLogs OTP Backend — shallow embedding

This file embeds the request-handling logic of the WalletLogs OTP backend
(`src/index.js`, `src/config/validation.js` which also holds the security
configuration with `getRateLimitConfig`) and proves or refutes the frozen
claims about it.

Conventions of the embedding:
* JavaScript `x || d` on numbers parsed from the environment is modelled by
  `jsOr : Option Nat → Nat → Nat` (a missing variable or a `NaN` parse is
  `none`; `0` is falsy in JavaScript and also falls back to the default).
* JavaScript `s || d` on environment strings is modelled by `jsOrStr`
  (the empty string is falsy).
* Response bodies are association lists of JSON-ish values, so that claims
  about which fields a body exposes can be stated by looking at the keys.
* Structured log records are modelled with their level, message, and the
  multiset of leaf string values that `logger.info/warn/error` would
  serialise (so "the log contains the passcode value" becomes membership in
  `LogRecord.values`). The `morgan` HTTP access log records only
  method/url/status and never the request body; it is not modelled.
-/

namespace WalletLogs

/-! ## Environment and external inputs -/

/-- The slice of `process.env` the modelled code reads. `rateLimitWindowMs`
and `rateLimitMaxRequests` hold the result of `parseInt` on the raw
variable: `none` means unset or not a number (`NaN`). -/
structure Env where
  nodeEnv : Option String
  rateLimitWindowMs : Option Nat
  rateLimitMaxRequests : Option Nat
  npmPackageVersion : Option String
  smtpHost : Option String
deriving Repr, DecidableEq

/-- JavaScript `x || d` for a parsed number: `undefined`/`NaN` and `0` are
falsy and fall back to the default. -/
def jsOr (v : Option Nat) (d : Nat) : Nat :=
  match v with
  | none => d
  | some n => if n = 0 then d else n

/-- JavaScript `s || d` for an environment string: `undefined` and the empty
string are falsy and fall back to the default. -/
def jsOrStr (v : Option String) (d : String) : String :=
  match v with
  | none => d
  | some s => if s = "" then d else s

/-- Strict equality `process.env.NODE_ENV === 'production'` (no fallback). -/
def isProd (env : Env) : Bool :=
  env.nodeEnv = some "production"

/-! ## Rate-limit configuration (`getRateLimitConfig` in the security config) -/

/-- The fields of the object returned by `getRateLimitConfig` that carry
logic: the window length, the per-window maximum, the static `retryAfter`
embedded in the 429 message body, and the skip predicate. -/
structure RateLimitConfig where
  windowMs : Nat
  maxReq : Nat
  messageRetryAfter : Nat
deriving Repr, DecidableEq

/-- Embeds `getRateLimitConfig`:
`windowMs = parseInt(RATE_LIMIT_WINDOW_MS) || (isProduction ? 900000 : 60000)`,
`max = parseInt(RATE_LIMIT_MAX_REQUESTS) || (isProduction ? 10 : 5)`, and the
message's `retryAfter: Math.ceil((parseInt(RATE_LIMIT_WINDOW_MS) || 900000) / 1000)`
— note the `retryAfter` fallback is always 15 minutes, with no
environment branch. `Math.ceil (n / 1000)` on naturals is `(n + 999) / 1000`. -/
def getRateLimitConfig (env : Env) : RateLimitConfig :=
  { windowMs := jsOr env.rateLimitWindowMs (if isProd env then 15 * 60 * 1000 else 60 * 1000)
  , maxReq := jsOr env.rateLimitMaxRequests (if isProd env then 10 else 5)
  , messageRetryAfter := (jsOr env.rateLimitWindowMs (15 * 60 * 1000) + 999) / 1000 }

/-- The `skip` predicate of the rate-limit configuration: skip when
`req.path === '/health'`. -/
def rateLimitSkip (path : String) : Bool :=
  path = "/health"

/-! ## Fixed-window rate limiter -/

/-- One client's window: request count and the timestamp at which the window
expires. -/
structure ClientWindow where
  count : Nat
  windowResetAt : Nat
deriving Repr, DecidableEq

/-- The per-client window table owned by the rate limiter. -/
abbrev RLStore : Type := String → Option ClientWindow

/-- Outcome of a rate-limit check. -/
inductive RLResult where
  | allowed
  | denied (retryAfterSeconds : Nat)
deriving Repr, DecidableEq

/-- Modelled from the spec: the fixed-window counter algorithm of the rate
limiter (the implementation lives in the external `express-rate-limit`
dependency; only its configuration is repository code). On `check`:
if no window exists for the client or `now > windowResetAt`, reset to
`count = 1, windowResetAt = now + windowMs` and allow; else if
`count < max`, increment and allow; else deny with
`ceil((windowResetAt - now) / 1000)` seconds to retry. -/
def rlCheck (cfg : RateLimitConfig) (s : RLStore) (cid : String) (now : Nat) :
    RLResult × RLStore :=
  match s cid with
  | none =>
      (.allowed, fun k => if k = cid then some ⟨1, now + cfg.windowMs⟩ else s k)
  | some w =>
      if now > w.windowResetAt then
        (.allowed, fun k => if k = cid then some ⟨1, now + cfg.windowMs⟩ else s k)
      else if w.count < cfg.maxReq then
        (.allowed, fun k => if k = cid then some ⟨w.count + 1, w.windowResetAt⟩ else s k)
      else
        (.denied ((w.windowResetAt - now + 999) / 1000), s)

/-- Run a sequence of checks for one client at the given times, returning the
number of allowed calls and the final store. -/
def rlRun (cfg : RateLimitConfig) (s : RLStore) (cid : String) :
    List Nat → Nat × RLStore
  | [] => (0, s)
  | t :: ts =>
      let r := rlCheck cfg s cid t
      let rest := rlRun cfg r.2 cid ts
      (match r.1 with
       | .allowed => rest.1 + 1
       | .denied _ => rest.1, rest.2)

/-- Number of admitted calls in a trace of check times for one client. -/
def allowedCount (cfg : RateLimitConfig) (s : RLStore) (cid : String)
    (ts : List Nat) : Nat :=
  (rlRun cfg s cid ts).1

/-! ## Request validation (`validateSendOtp`) -/

/-- ASCII digit test. -/
def isAsciiDigit (c : Char) : Bool :=
  '0' ≤ c && c ≤ '9'

/-- The tail of validator.js's default numeric grammar after the optional
sign: `([0-9]*[.])?[0-9]+` — either all digits (nonempty), or digits,
one dot, then at least one digit. -/
def numericTail (l : List Char) : Bool :=
  if l.contains '.' then
    let pre := l.takeWhile (fun c => c ≠ '.')
    let post := (l.dropWhile (fun c => c ≠ '.')).tail
    pre.all isAsciiDigit && !post.isEmpty && post.all isAsciiDigit
  else
    !l.isEmpty && l.all isAsciiDigit

/-- validator.js `isNumeric` with default options (as called by
`body('otp').isNumeric()`): the regex `[+-]?([0-9]*[.])?[0-9]+` with the
default `.` decimal separator. An optional leading sign is accepted. -/
def isNumericStr (s : String) : Bool :=
  match s.toList with
  | [] => false
  | c :: rest =>
      if c = '+' || c = '-' then numericTail rest else numericTail (c :: rest)

/-- Split a character list at each `@`. -/
def splitAtSign : List Char → List (List Char)
  | [] => [[]]
  | c :: rest =>
      let r := splitAtSign rest
      if c = '@' then [] :: r
      else
        match r with
        | [] => [[c]]
        | a :: as => (c :: a) :: as

/-- Modelled from the spec: "Email: must match a standard address grammar"
(the `isEmail` implementation lives in the external validator library, not
in this repository). One `@`, nonempty space-free local part, and a domain
containing an inner dot. The `normalizeEmail` sanitizer is modelled as the
identity. -/
def isEmailStr (s : String) : Bool :=
  match splitAtSign s.toList with
  | [lp, dp] =>
      !lp.isEmpty && !lp.contains ' ' &&
      !dp.isEmpty && !dp.contains ' ' && dp.contains '.' &&
      dp.head? ≠ some '.' && dp.getLast? ≠ some '.'
  | _ => false

/-- One entry of the `errorDetails` array built in the `/send-otp` handler:
`{ field: err.param, message: err.msg, value: err.value }`. -/
structure FieldError where
  field : String
  message : String
  value : String
deriving Repr, DecidableEq

/-- Errors produced by the `body('email')` chain: `isEmail` with message
"Invalid email format", then `isLength({ max: 254 })` with message
"Email address too long". Every failed validator in the chain contributes
its own error. -/
def emailFieldErrors (email : String) : List FieldError :=
  (if isEmailStr email then [] else [⟨"email", "Invalid email format", email⟩]) ++
  (if email.length ≤ 254 then [] else [⟨"email", "Email address too long", email⟩])

/-- Errors produced by the `body('otp')` chain: `isNumeric` with message
"OTP must contain only numbers", then `isLength({ min: 6, max: 6 })` with
message "OTP must be exactly 6 digits". -/
def otpFieldErrors (otp : String) : List FieldError :=
  (if isNumericStr otp then [] else [⟨"otp", "OTP must contain only numbers", otp⟩]) ++
  (if 6 ≤ otp.length && otp.length ≤ 6 then []
   else [⟨"otp", "OTP must be exactly 6 digits", otp⟩])

/-- The `errorDetails` array of the `/send-otp` handler: all field errors
from `validationResult(req)`, email chain then otp chain. -/
def errorDetails (email otp : String) : List FieldError :=
  emailFieldErrors email ++ otpFieldErrors otp

/-- The `details` array of the 400 body: `errorDetails.map(err => err.message)`. -/
def validationDetails (email otp : String) : List String :=
  (errorDetails email otp).map (fun e => e.message)

/-! ## Responses, log records, and the request pipeline -/

/-- JSON-ish values appearing in response bodies. -/
inductive JVal where
  | s (v : String)
  | n (v : Nat)
  | b (v : Bool)
  | arr (v : List JVal)

/-- A JSON object body as an association list, so statements can inspect
exactly which fields a response exposes. -/
abbrev JBody : Type := List (String × JVal)

/-- The field names of a body, in order. -/
def bodyKeys (bdy : JBody) : List String :=
  bdy.map (fun kv => kv.1)

/-- Look up a numeric field of a body. -/
def bodyNat (bdy : JBody) (k : String) : Option Nat :=
  match bdy.find? (fun kv => kv.1 = k) with
  | some (_, .n v) => some v
  | _ => none

/-- Look up a string field of a body. -/
def bodyStr (bdy : JBody) (k : String) : Option String :=
  match bdy.find? (fun kv => kv.1 = k) with
  | some (_, .s v) => some v
  | _ => none

/-- Look up an array-of-strings field of a body. -/
def bodyStrArr (bdy : JBody) (k : String) : Option (List String) :=
  match bdy.find? (fun kv => kv.1 = k) with
  | some (_, .arr vs) =>
      some (vs.filterMap (fun v => match v with | .s x => some x | _ => none))
  | _ => none

/-- An HTTP response: status code, headers, JSON body. -/
structure Response where
  status : Nat
  headers : List (String × String)
  body : JBody

/-- A structured log record: level, message, and the leaf string values the
logger would serialise from the metadata object (flattened). -/
structure LogRecord where
  level : String
  message : String
  values : List String
deriving Repr, DecidableEq

/-- An HTTP method. -/
inductive Method where
  | get
  | post
deriving Repr, DecidableEq

/-- An inbound HTTP request as the modelled middleware sees it. -/
structure Request where
  method : Method
  path : String
  xRequestIdHeader : Option String
  email : String
  otp : String
  ip : String
  userAgent : String
deriving Repr, DecidableEq

/-- Per-call external inputs the handlers consume: the fresh UUID the
request-id middleware would mint, wall-clock strings, process stats, and the
outcome of the SMTP dispatch. -/
inductive TransportOutcome where
  | ok (messageId : String) (smtpResponse : String)
  | fail (errMessage : String) (errStack : String) (verified : Bool)
deriving Repr, DecidableEq

/-- Nondeterministic per-call environment inputs. -/
structure CallExt where
  freshUuid : String
  nowIso : String
  uptime : Nat
  memUsage : Nat
  transport : TransportOutcome
deriving Repr, DecidableEq

/-- The request-id middleware:
`req.id = req.headers['x-request-id'] || uuidv4()` — a caller-supplied
header (nonempty, since the empty string is falsy) is used verbatim,
otherwise a fresh UUIDv4. -/
def assignRequestId (headerVal : Option String) (freshUuid : String) : String :=
  match headerVal with
  | none => freshUuid
  | some h => if h = "" then freshUuid else h

/-- Whether the limiter mounted by `app.use('/send-otp', limiter)` applies to
a path: express mount-path matching, i.e. the path is `/send-otp` or lies
below it. -/
def limiterApplies (path : String) : Bool :=
  path = "/send-otp" || "/send-otp/".toList.isPrefixOf path.toList

/-- The `GET /health` body: status, timestamp, uptime,
`NODE_ENV || 'development'`, `npm_package_version || '1.0.0'`, requestId —
plus `memory` exactly when `NODE_ENV !== 'production'`. -/
def healthBody (env : Env) (ext : CallExt) (reqId : String) : JBody :=
  [("status", .s "OK"), ("timestamp", .s ext.nowIso), ("uptime", .n ext.uptime),
   ("environment", .s (jsOrStr env.nodeEnv "development")),
   ("version", .s (jsOrStr env.npmPackageVersion "1.0.0")),
   ("requestId", .s reqId)] ++
  (if env.nodeEnv = some "production" then [] else [("memory", .n ext.memUsage)])

/-- The `logger.info('Health check requested', ...)` record. -/
def healthLog (reqId ip ua : String) : LogRecord :=
  ⟨"info", "Health check requested", [reqId, ip, ua]⟩

/-- The `logger.info('OTP send request received', ...)` record: requestId,
email, ip, userAgent — the otp value is not part of the metadata. -/
def receivedLog (reqId email ip ua : String) : LogRecord :=
  ⟨"info", "OTP send request received", [reqId, email, ip, ua]⟩

/-- The `logger.warn('Validation failed for OTP request', ...)` record: its
metadata embeds `errors: errorDetails`, so the serialised values include each
failing field's name, message, and submitted value. -/
def validationWarnLog (reqId email : String) (errs : List FieldError)
    (ip : String) : LogRecord :=
  ⟨"warn", "Validation failed for OTP request",
   [reqId, email] ++ errs.map (fun e => e.field) ++ errs.map (fun e => e.message) ++
     errs.map (fun e => e.value) ++ [ip]⟩

/-- The `logger.info('SMTP connection verified', ...)` record. -/
def smtpVerifiedLog (env : Env) (reqId : String) : LogRecord :=
  ⟨"info", "SMTP connection verified", [reqId, jsOrStr env.smtpHost ""]⟩

/-- The `logger.info('OTP email sent successfully', ...)` record. -/
def sentLog (reqId email messageId processingTime smtpResponse : String) :
    LogRecord :=
  ⟨"info", "OTP email sent successfully",
   [reqId, email, messageId, processingTime, smtpResponse]⟩

/-- The `logger.error('Failed to send OTP email', ...)` record: the transport
exception's message and stack go to the internal log sink. -/
def sendFailedLog (env : Env) (reqId email errMessage errStack processingTime :
    String) : LogRecord :=
  ⟨"error", "Failed to send OTP email",
   [reqId, email, errMessage, errStack, processingTime, jsOrStr env.smtpHost ""]⟩

/-- The 400 validation-failure body built at `src/index.js:132`:
`{ success: false, error: 'Validation failed', details: [...] }` — these
three fields and no others. -/
def validationFailureBody (email otp : String) : JBody :=
  [("success", .b false), ("error", .s "Validation failed"),
   ("details", .arr ((validationDetails email otp).map .s))]

/-- The 200 success body of `/send-otp`. -/
def sendSuccessBody (ext : CallExt) (reqId : String) : JBody :=
  [("success", .b true), ("message", .s "OTP sent successfully"),
   ("timestamp", .s ext.nowIso), ("requestId", .s reqId)]

/-- The 500 transport-failure body: a fixed generic error string plus
requestId and timestamp; no exception detail. -/
def transportFailureBody (ext : CallExt) (reqId : String) : JBody :=
  [("success", .b false),
   ("error", .s "Failed to send verification email. Please try again."),
   ("requestId", .s reqId), ("timestamp", .s ext.nowIso)]

/-- The 404 body of the catch-all route. -/
def notFoundBody (ext : CallExt) (reqId : String) : JBody :=
  [("success", .b false), ("error", .s "Endpoint not found"),
   ("requestId", .s reqId), ("timestamp", .s ext.nowIso)]

/-- The 429 body: the static `message` object of `getRateLimitConfig`,
sent unchanged by the limiter on denial. -/
def rateLimitedBody (cfg : RateLimitConfig) : JBody :=
  [("success", .b false),
   ("error", .s "Too many requests. Please try again later."),
   ("retryAfter", .n cfg.messageRetryAfter)]

/-- The `POST /send-otp` handler after the limiter has admitted the call:
log receipt, collect validation errors (400 on any), otherwise dispatch and
map the transport outcome to 200 or a sanitised 500. `processingTime` is the
elapsed-time string; its exact value is irrelevant to every claim, so the
model renders it as the fixed placeholder the logger would format. -/
def sendOtpHandler (env : Env) (ext : CallExt) (reqId : String)
    (req : Request) : Response × List LogRecord :=
  let recLog := receivedLog reqId req.email req.ip req.userAgent
  let errs := errorDetails req.email req.otp
  if errs.isEmpty then
    match ext.transport with
    | .ok messageId smtpResponse =>
        (⟨200, [("X-Request-ID", reqId)], sendSuccessBody ext reqId⟩,
         [recLog, smtpVerifiedLog env reqId,
          sentLog reqId req.email messageId "ms" smtpResponse])
    | .fail errMessage errStack verified =>
        (⟨500, [("X-Request-ID", reqId)], transportFailureBody ext reqId⟩,
         [recLog] ++ (if verified then [smtpVerifiedLog env reqId] else []) ++
          [sendFailedLog env reqId req.email errMessage errStack "ms"])
  else
    (⟨400, [("X-Request-ID", reqId)], validationFailureBody req.email req.otp⟩,
     [recLog, validationWarnLog reqId req.email errs req.ip])

/-- Routing after the limiter: `GET /health`, `POST /send-otp`, else the 404
catch-all. -/
def dispatchRoute (env : Env) (ext : CallExt) (reqId : String)
    (req : Request) : Response × List LogRecord :=
  if req.method = .get && req.path = "/health" then
    (⟨200, [("X-Request-ID", reqId)], healthBody env ext reqId⟩,
     [healthLog reqId req.ip req.userAgent])
  else if req.method = .post && req.path = "/send-otp" then
    sendOtpHandler env ext reqId req
  else
    (⟨404, [("X-Request-ID", reqId)], notFoundBody ext reqId⟩,
     [⟨"warn", "404 - Route not found", [reqId, req.path, req.ip, req.userAgent]⟩])

/-- The whole per-call pipeline: assign the request id (middleware sets the
`X-Request-ID` response header for every response), run the limiter exactly
when the request path lies under the `/send-otp` mount, then route. Returns
the response, the rate-limiter store after the call, and the structured log
records emitted while handling the call. -/
def handleRequest (env : Env) (store : RLStore) (now : Nat) (ext : CallExt)
    (req : Request) : Response × RLStore × List LogRecord :=
  let reqId := assignRequestId req.xRequestIdHeader ext.freshUuid
  let cfg := getRateLimitConfig env
  if limiterApplies req.path then
    match rlCheck cfg store req.ip now with
    | (.denied _, s') =>
        (⟨429, [("X-Request-ID", reqId)], rateLimitedBody cfg⟩, s', [])
    | (.allowed, s') =>
        let d := dispatchRoute env ext reqId req
        (d.1, s', d.2)
  else
    let d := dispatchRoute env ext reqId req
    (d.1, store, d.2)

/-- Replace only the otp field of a request. -/
def withOtp (req : Request) (o : String) : Request :=
  ⟨req.method, req.path, req.xRequestIdHeader, req.email, o, req.ip, req.userAgent⟩

/-! ## Concrete fixtures used by witnesses and counterexamples -/

/-- A development environment: no variables set. -/
def devEnv : Env := ⟨none, none, none, none, none⟩

/-- A production environment with no overrides. -/
def prodEnv : Env := ⟨some "production", none, none, none, none⟩

/-- The rate-limiter table before any request. -/
def emptyStore : RLStore := fun _ => none

/-- Generic per-call external inputs with a successful dispatch. -/
def ext0 : CallExt := ⟨"uuid-0", "2026-10-12T00:00:00.000Z", 100, 42, .ok "m1" "250 OK"⟩

/-- A request whose body is the invalid `{"email":"bad","otp":"1"}`. -/
def reqBadBoth : Request := ⟨.post, "/send-otp", none, "bad", "1", "203.0.113.7", "curl/8"⟩

/-- A valid send request from the client `9.9.9.9`. -/
def reqValid : Request := ⟨.post, "/send-otp", none, "user@example.com", "123456", "9.9.9.9", "curl/8"⟩

/-- A table in which client `9.9.9.9` has exhausted the development window
(5 hits, window expiring at t = 60000). -/
def exhaustedStore : RLStore := fun k => if k = "9.9.9.9" then some ⟨5, 60000⟩ else none

/-- A health-check request carrying a caller-chosen `X-Request-ID` header. -/
def reqHealthDup : Request := ⟨.get, "/health", some "dup-id", "", "", "1.2.3.4", "probe"⟩

/-- A second set of external inputs, differing from `ext0` in the fresh UUID. -/
def ext1 : CallExt := ⟨"uuid-1", "2026-10-12T00:00:00.000Z", 100, 42, .ok "m1" "250 OK"⟩

/-- A plain health-check request with no inbound request-id header. -/
def reqHealth : Request := ⟨.get, "/health", none, "", "", "9.9.9.9", "probe"⟩

/-- A send request with a well-formed email and a 5-digit otp. -/
def reqShortOtp : Request := ⟨.post, "/send-otp", none, "user@example.com", "12345", "198.51.100.3", "curl/8"⟩

/-! ## Helper lemmas -/

/-- The configured per-window maximum is always at least 1: the JavaScript
fallback chain bottoms out at 10 (production) or 5 (development), and a `0`
override is falsy and also falls back. -/
theorem maxReq_pos (env : Env) : 1 ≤ (getRateLimitConfig env).maxReq := by
  cases h : env.rateLimitMaxRequests with
  | none => simp only [getRateLimitConfig, jsOr, h]; split <;> omega
  | some n =>
      simp only [getRateLimitConfig, jsOr, h]
      split
      · split <;> omega
      · omega

/-- Within one window (all check times at or before the window's reset
time), a client whose window already counts `c` hits is admitted at most
`maxReq - c` more times. -/
theorem rlRun_window_bound (cfg : RateLimitConfig) (cid : String) :
    ∀ (ts : List Nat) (s : RLStore) (c R : Nat),
      s cid = some ⟨c, R⟩ → (∀ t ∈ ts, t ≤ R) →
      allowedCount cfg s cid ts ≤ cfg.maxReq - c := by
  intro ts
  induction ts with
  | nil => intro s c R _ _; simp [allowedCount, rlRun]
  | cons t ts ih =>
      intro s c R hs hts
      have ht : ¬ (t > R) := by
        have := hts t (List.mem_cons_self t ts)
        omega
      have hrest : ∀ x ∈ ts, x ≤ R := fun x hx => hts x (List.mem_cons_of_mem t hx)
      by_cases hc : c < cfg.maxReq
      · have hstep : rlCheck cfg s cid t =
            (.allowed, fun k => if k = cid then some ⟨c + 1, R⟩ else s k) := by
          simp [rlCheck, hs, ht, hc]
        have hnext : (fun k => if k = cid then some (⟨c + 1, R⟩ : ClientWindow) else s k) cid
            = some ⟨c + 1, R⟩ := by simp
        have hrec := ih (fun k => if k = cid then some (⟨c + 1, R⟩ : ClientWindow) else s k)
          (c + 1) R hnext hrest
        simp only [allowedCount, rlRun, hstep] at hrec ⊢
        omega
      · have hstep : rlCheck cfg s cid t = (.denied ((R - t + 999) / 1000), s) := by
          simp [rlCheck, hs, ht, hc]
        have hrec := ih s c R hs hrest
        simp only [allowedCount, rlRun, hstep] at hrec ⊢
        omega

/-- C5: for a single client and a window opened by a first call at `t0`,
the fixed-window limiter admits at most `maxReq` of the calls whose times
stay at or before the window's reset time; once the reset time has passed
a call is admitted again (fresh window); a call inside the window finding
the counter at the maximum is denied; and the configured values are
10 per 15 minutes in production, 5 per minute in development, with nonzero
environment overrides taking precedence. -/
theorem C5_fixed_window_limiter (env : Env) (cid : String) (t0 : Nat)
    (rest : List Nat)
    (hrest : ∀ t ∈ rest, t ≤ t0 + (getRateLimitConfig env).windowMs) :
    allowedCount (getRateLimitConfig env) emptyStore cid (t0 :: rest)
        ≤ (getRateLimitConfig env).maxReq ∧
    (∀ (s : RLStore) (w : ClientWindow) (now : Nat), s cid = some w →
        w.windowResetAt < now →
        (rlCheck (getRateLimitConfig env) s cid now).1 = .allowed) ∧
    (∀ (s : RLStore) (w : ClientWindow) (now : Nat), s cid = some w →
        now ≤ w.windowResetAt → (getRateLimitConfig env).maxReq ≤ w.count →
        (rlCheck (getRateLimitConfig env) s cid now).1
          = .denied ((w.windowResetAt - now + 999) / 1000)) ∧
    (isProd env = true → env.rateLimitWindowMs = none →
        env.rateLimitMaxRequests = none →
        (getRateLimitConfig env).windowMs = 900000 ∧
        (getRateLimitConfig env).maxReq = 10) ∧
    (isProd env = false → env.rateLimitWindowMs = none →
        env.rateLimitMaxRequests = none →
        (getRateLimitConfig env).windowMs = 60000 ∧
        (getRateLimitConfig env).maxReq = 5) ∧
    (∀ n, env.rateLimitWindowMs = some n → n ≠ 0 →
        (getRateLimitConfig env).windowMs = n) ∧
    (∀ n, env.rateLimitMaxRequests = some n → n ≠ 0 →
        (getRateLimitConfig env).maxReq = n) := by
  refine ⟨?_, ?_, ?_, ?_, ?_, ?_, ?_⟩
  · have hstep : rlCheck (getRateLimitConfig env) emptyStore cid t0 =
        (.allowed, fun k =>
          if k = cid then some ⟨1, t0 + (getRateLimitConfig env).windowMs⟩
          else emptyStore k) := by
      simp [rlCheck, emptyStore]
    have hnext : (fun k =>
        if k = cid then
          some (⟨1, t0 + (getRateLimitConfig env).windowMs⟩ : ClientWindow)
        else emptyStore k) cid
        = some ⟨1, t0 + (getRateLimitConfig env).windowMs⟩ := by simp
    have hrec := rlRun_window_bound (getRateLimitConfig env) cid rest
      (fun k =>
        if k = cid then
          some (⟨1, t0 + (getRateLimitConfig env).windowMs⟩ : ClientWindow)
        else emptyStore k)
      1 (t0 + (getRateLimitConfig env).windowMs) hnext hrest
    have hpos := maxReq_pos env
    simp only [allowedCount, rlRun, hstep] at hrec ⊢
    omega
  · intro s w now hs hlt
    simp [rlCheck, hs, hlt]
  · intro s w now hs hle hmax
    have h1 : ¬ (now > w.windowResetAt) := by omega
    have h2 : ¬ (w.count < (getRateLimitConfig env).maxReq) := by omega
    simp [rlCheck, hs, h1, h2]
  · intro hprod hw hm
    simp [getRateLimitConfig, jsOr, hprod, hw, hm]
  · intro hprod hw hm
    simp [getRateLimitConfig, jsOr, hprod, hw, hm]
  · intro n hn hn0
    simp [getRateLimitConfig, jsOr, hn, hn0]
  · intro n hn hn0
    simp [getRateLimitConfig, jsOr, hn, hn0]

/-- Witness for C5 at the development defaults: six calls inside the first
minute from one client admit at most 5. -/
theorem C5_fixed_window_limiter_witness :
    allowedCount (getRateLimitConfig devEnv) emptyStore "1.1.1.1"
        [0, 1, 2, 3, 4, 5] ≤ (getRateLimitConfig devEnv).maxReq :=
  (C5_fixed_window_limiter devEnv "1.1.1.1" 0 [1, 2, 3, 4, 5] (by decide)).1

/-- C6: a `GET /health` call always returns 200, leaves the rate-limiter
table untouched, produces a response independent of the limiter table and
clock (so the handler never consults that state), lies outside the
limiter's `/send-otp` mount, and is additionally skipped by the limiter's
own `skip` predicate. -/
theorem C6_health_exempt (env : Env) (s1 s2 : RLStore) (now1 now2 : Nat)
    (ext : CallExt) (req : Request)
    (hm : req.method = .get) (hp : req.path = "/health") :
    (handleRequest env s1 now1 ext req).1.status = 200 ∧
    (handleRequest env s1 now1 ext req).2.1 = s1 ∧
    (handleRequest env s1 now1 ext req).1 = (handleRequest env s2 now2 ext req).1 ∧
    limiterApplies req.path = false ∧
    rateLimitSkip req.path = true := by
  have hl : limiterApplies "/health" = false := by decide
  simp [handleRequest, dispatchRoute, hp, hm, hl, rateLimitSkip]

/-- Witness for C6: the health probe answers 200 even when the probing
client has exhausted the send-otp window. -/
theorem C6_health_exempt_witness :
    (handleRequest devEnv exhaustedStore 0 ext0 reqHealth).1.status = 200 ∧
    (handleRequest devEnv exhaustedStore 0 ext0 reqHealth).2.1 = exhaustedStore :=
  ⟨(C6_health_exempt devEnv exhaustedStore exhaustedStore 0 0 ext0 reqHealth rfl rfl).1,
   (C6_health_exempt devEnv exhaustedStore exhaustedStore 0 0 ext0 reqHealth rfl rfl).2.1⟩

/-- C10: the health body carries the `memory` field exactly when
`NODE_ENV` is not `production`; in production the body exposes precisely
status, timestamp, uptime, environment, version and requestId. -/
theorem C10_health_memory_field (env : Env) (ext : CallExt) (reqId : String) :
    (("memory" ∈ bodyKeys (healthBody env ext reqId)) ↔
        env.nodeEnv ≠ some "production") ∧
    (env.nodeEnv = some "production" →
        bodyKeys (healthBody env ext reqId)
          = ["status", "timestamp", "uptime", "environment", "version",
             "requestId"]) := by
  by_cases h : env.nodeEnv = some "production"
  · refine ⟨?_, fun _ => by simp [healthBody, bodyKeys, h]⟩
    simp [healthBody, bodyKeys, h]
  · refine ⟨?_, fun hh => absurd hh h⟩
    simp [healthBody, bodyKeys, h]

/-- Witness for C10: in production the body has exactly the six fields; in
the development default the `memory` field is present. -/
theorem C10_health_memory_field_witness :
    bodyKeys (healthBody prodEnv ext0 "r1")
      = ["status", "timestamp", "uptime", "environment", "version",
         "requestId"] ∧
    "memory" ∈ bodyKeys (healthBody devEnv ext0 "r1") :=
  ⟨(C10_health_memory_field prodEnv ext0 "r1").2 rfl,
   (C10_health_memory_field devEnv ext0 "r1").1.mpr (by decide)⟩

/-- C1 (code bug): on the validation-failure input
`{"email":"bad","otp":"1"}` the service answers 400 with body fields
exactly success, error, details — the `requestId` and `timestamp` fields
documented for this body are absent (the correlation id travels only in the
`X-Request-ID` response header); the static 429 message body likewise has
no `requestId` field. -/
theorem C1_validation_response_omits_requestId :
    (handleRequest devEnv emptyStore 0 ext0 reqBadBoth).1.status = 400 ∧
    bodyKeys (handleRequest devEnv emptyStore 0 ext0 reqBadBoth).1.body
      = ["success", "error", "details"] ∧
    ¬ ("requestId" ∈ bodyKeys (handleRequest devEnv emptyStore 0 ext0 reqBadBoth).1.body) ∧
    ¬ ("timestamp" ∈ bodyKeys (handleRequest devEnv emptyStore 0 ext0 reqBadBoth).1.body) ∧
    (handleRequest devEnv emptyStore 0 ext0 reqBadBoth).1.headers
      = [("X-Request-ID", "uuid-0")] ∧
    ¬ ("requestId" ∈ bodyKeys (rateLimitedBody (getRateLimitConfig devEnv))) := by
  decide

/-- C3 (code bug): the otp validator chain (`isNumeric` with default
options, then length exactly 6) accepts `"123456"` and rejects `"12345"`,
`"1234567"`, `"12a456"` as claimed — but it also accepts `"+12345"` and
`"1.2345"`, six-character strings that are not all ASCII digits, because
the default numeric grammar admits a sign and a decimal point. -/
theorem C3_otp_validator_accepts_nondigits :
    otpFieldErrors "123456" = [] ∧
    otpFieldErrors "12345" ≠ [] ∧
    otpFieldErrors "1234567" ≠ [] ∧
    otpFieldErrors "12a456" ≠ [] ∧
    otpFieldErrors "+12345" = [] ∧
    ("+12345".toList.all isAsciiDigit) = false ∧
    "+12345".length = 6 ∧
    otpFieldErrors "1.2345" = [] ∧
    ("1.2345".toList.all isAsciiDigit) = false := by
  decide

/-- C2 counterexample: in the development default configuration the window
is 60 s but the 429 body's `retryAfter` is the static 900. Concretely, with
client `9.9.9.9` denied at `now = 30000` inside a window resetting at
60000, the dynamic `ceil((windowResetAt - now)/1000)` is 30, yet the
response carries 900, which also exceeds `windowMs / 1000 = 60`. -/
theorem C2_retry_after_counterexample :
    (handleRequest devEnv exhaustedStore 30000 ext0 reqValid).1.status = 429 ∧
    bodyNat (handleRequest devEnv exhaustedStore 30000 ext0 reqValid).1.body
        "retryAfter" = some 900 ∧
    (rlCheck (getRateLimitConfig devEnv) exhaustedStore "9.9.9.9" 30000).1
      = .denied 30 ∧
    (getRateLimitConfig devEnv).windowMs / 1000 = 60 ∧
    (900 : Nat) ≠ 30 ∧
    ¬ ((900 : Nat) ≤ 60) := by
  decide

/-- C2 as amended: whenever the limiter denies a send-path request, the 429
body's `retryAfter` is the static configuration value
`ceil((RATE_LIMIT_WINDOW_MS or 900000) / 1000)`, independent of the
client's window state; it coincides with `ceil(windowMs / 1000)` exactly
when the window override is set (nonzero) or in production default. -/
theorem C2_retry_after_static (env : Env) (s : RLStore) (now : Nat)
    (ext : CallExt) (req : Request) (r : Nat)
    (hpath : limiterApplies req.path = true)
    (hden : (rlCheck (getRateLimitConfig env) s req.ip now).1 = .denied r) :
    (handleRequest env s now ext req).1.status = 429 ∧
    bodyNat (handleRequest env s now ext req).1.body "retryAfter"
      = some ((jsOr env.rateLimitWindowMs 900000 + 999) / 1000) ∧
    (∀ n, env.rateLimitWindowMs = some n → n ≠ 0 →
      bodyNat (handleRequest env s now ext req).1.body "retryAfter"
        = some (((getRateLimitConfig env).windowMs + 999) / 1000)) ∧
    (isProd env = true → env.rateLimitWindowMs = none →
      bodyNat (handleRequest env s now ext req).1.body "retryAfter"
        = some (((getRateLimitConfig env).windowMs + 999) / 1000)) := by
  rcases hrc : rlCheck (getRateLimitConfig env) s req.ip now with ⟨r1, s1⟩
  rw [hrc] at hden
  simp only at hden
  subst hden
  have hresp : (handleRequest env s now ext req).1
      = ⟨429, [("X-Request-ID", assignRequestId req.xRequestIdHeader ext.freshUuid)],
         rateLimitedBody (getRateLimitConfig env)⟩ := by
    simp [handleRequest, hpath, hrc]
  have hbn : bodyNat (rateLimitedBody (getRateLimitConfig env)) "retryAfter"
      = some ((jsOr env.rateLimitWindowMs 900000 + 999) / 1000) := rfl
  refine ⟨by rw [hresp], by rw [hresp, hbn], ?_, ?_⟩
  · intro n hn hn0
    rw [hresp, hbn]
    have hwin : (getRateLimitConfig env).windowMs = n := by
      simp [getRateLimitConfig, jsOr, hn, hn0]
    rw [hwin, hn]
    simp [jsOr, hn0]
  · intro hprod hw
    rw [hresp, hbn]
    have hwin : (getRateLimitConfig env).windowMs = 900000 := by
      simp [getRateLimitConfig, jsOr, hprod, hw]
    rw [hwin, hw]
    simp [jsOr]

/-- Witness for C2 as amended, at the development default with an exhausted
window. -/
theorem C2_retry_after_static_witness :
    (handleRequest devEnv exhaustedStore 45000 ext0 reqValid).1.status = 429 ∧
    bodyNat (handleRequest devEnv exhaustedStore 45000 ext0 reqValid).1.body
        "retryAfter" = some ((jsOr devEnv.rateLimitWindowMs 900000 + 999) / 1000) :=
  ⟨(C2_retry_after_static devEnv exhaustedStore 45000 ext0 reqValid 15
      (by decide) (by decide)).1,
   (C2_retry_after_static devEnv exhaustedStore 45000 ext0 reqValid 15
      (by decide) (by decide)).2.1⟩

/-- C4 counterexample: two distinct inbound calls (they would mint the
distinct fresh identifiers `uuid-a` and `uuid-b`) that both present
`X-Request-ID: dup-id` receive the same correlation id `dup-id`, so the id
is caller-controlled and not unique per inbound call. -/
theorem C4_shared_header_counterexample :
    "uuid-a" ≠ "uuid-b" ∧
    (handleRequest devEnv emptyStore 0 ⟨"uuid-a", "t", 0, 0, .ok "m" "r"⟩ reqHealthDup).1.headers
      = (handleRequest devEnv emptyStore 0 ⟨"uuid-b", "t", 0, 0, .ok "m" "r"⟩ reqHealthDup).1.headers ∧
    (handleRequest devEnv emptyStore 0 ⟨"uuid-a", "t", 0, 0, .ok "m" "r"⟩ reqHealthDup).1.headers
      = [("X-Request-ID", "dup-id")] := by
  decide

/-- C4 as amended: the request-id middleware uses a caller-supplied
(nonempty) `x-request-id` header verbatim and only mints a fresh UUIDv4
when the header is absent or empty; distinct fresh UUIDs give distinct ids,
so uniqueness holds only for service-generated ids. -/
theorem C4_request_id_assignment (u hv u1 u2 : String)
    (hhv : hv ≠ "") (hne : u1 ≠ u2) :
    assignRequestId none u = u ∧
    assignRequestId (some hv) u = hv ∧
    assignRequestId (some "") u = u ∧
    assignRequestId none u1 ≠ assignRequestId none u2 := by
  refine ⟨rfl, ?_, rfl, ?_⟩
  · simp [assignRequestId, hhv]
  · simpa [assignRequestId] using hne

/-- Witness for C4 as amended. -/
theorem C4_request_id_assignment_witness :
    assignRequestId none "uuid-a" = "uuid-a" ∧
    assignRequestId (some "hdr-id") "uuid-a" = "hdr-id" :=
  ⟨(C4_request_id_assignment "uuid-a" "hdr-id" "u1" "u2" (by decide) (by decide)).1,
   (C4_request_id_assignment "uuid-a" "hdr-id" "u1" "u2" (by decide) (by decide)).2.1⟩

/-- C7: the 400 details list carries every failing field's message — on the
body `{"email":"bad","otp":"1"}` exactly the two field errors — and in
general a failing email check, a failing numeric check, and a failing
length check each place their message in the details. -/
theorem C7_all_field_errors :
    validationDetails "bad" "1"
        = ["Invalid email format", "OTP must be exactly 6 digits"] ∧
    (validationDetails "bad" "1").length = 2 ∧
    (∀ email otp : String, isEmailStr email = false →
        "Invalid email format" ∈ validationDetails email otp) ∧
    (∀ email otp : String, isNumericStr otp = false →
        "OTP must contain only numbers" ∈ validationDetails email otp) ∧
    (∀ email otp : String, otp.length ≠ 6 →
        "OTP must be exactly 6 digits" ∈ validationDetails email otp) := by
  refine ⟨by decide, by decide, ?_, ?_, ?_⟩
  · intro email otp h
    simp [validationDetails, errorDetails, emailFieldErrors, h]
  · intro email otp h
    simp [validationDetails, errorDetails, otpFieldErrors, h]
  · intro email otp h
    have hb : (decide (6 ≤ otp.length) && decide (otp.length ≤ 6)) = false := by
      simp only [Bool.and_eq_false_iff, decide_eq_false_iff_not]
      omega
    simp [validationDetails, errorDetails, otpFieldErrors, hb]

/-- Witness for C7: each failing check contributes its message. -/
theorem C7_all_field_errors_witness :
    "Invalid email format" ∈ validationDetails "not-an-email" "123456" ∧
    "OTP must contain only numbers" ∈ validationDetails "user@example.com" "12a456" ∧
    "OTP must be exactly 6 digits" ∈ validationDetails "user@example.com" "12345" :=
  ⟨C7_all_field_errors.2.2.1 "not-an-email" "123456" (by decide),
   C7_all_field_errors.2.2.2.1 "user@example.com" "12a456" (by decide),
   C7_all_field_errors.2.2.2.2 "user@example.com" "12345" (by decide)⟩

/-- C8: on any transport failure the caller sees status 500 with body
fields success, error, requestId, timestamp, whose error text is the fixed
generic message; the response is identical for any two transport failures
(no exception detail can leak), while an internal error-level record
carries the exception message and stack. -/
theorem C8_transport_failure_sanitised (env : Env) (extA extB : CallExt)
    (reqId : String) (req : Request) (m1 st1 m2 st2 : String) (v1 v2 : Bool)
    (hval : errorDetails req.email req.otp = [])
    (hA : extA.transport = .fail m1 st1 v1)
    (hB : extB.transport = .fail m2 st2 v2)
    (hts : extA.nowIso = extB.nowIso) :
    (sendOtpHandler env extA reqId req).1.status = 500 ∧
    bodyStr (sendOtpHandler env extA reqId req).1.body "error"
      = some "Failed to send verification email. Please try again." ∧
    bodyKeys (sendOtpHandler env extA reqId req).1.body
      = ["success", "error", "requestId", "timestamp"] ∧
    (sendOtpHandler env extA reqId req).1 = (sendOtpHandler env extB reqId req).1 ∧
    (∃ r ∈ (sendOtpHandler env extA reqId req).2,
      r.level = "error" ∧ m1 ∈ r.values ∧ st1 ∈ r.values) := by
  have hresp : ∀ (ext : CallExt) (m st : String) (v : Bool),
      ext.transport = .fail m st v →
      sendOtpHandler env ext reqId req
        = (⟨500, [("X-Request-ID", reqId)], transportFailureBody ext reqId⟩,
           [receivedLog reqId req.email req.ip req.userAgent] ++
             (if v then [smtpVerifiedLog env reqId] else []) ++
             [sendFailedLog env reqId req.email m st "ms"]) := by
    intro ext m st v h
    simp [sendOtpHandler, hval, h]
  have hA' := hresp extA m1 st1 v1 hA
  have hB' := hresp extB m2 st2 v2 hB
  refine ⟨?_, ?_, ?_, ?_, ?_⟩
  · rw [hA']
  · rw [hA']; rfl
  · rw [hA']; rfl
  · rw [hA', hB']
    simp [transportFailureBody, hts]
  · rw [hA']
    refine ⟨sendFailedLog env reqId req.email m1 st1 "ms", ?_, rfl, ?_, ?_⟩
    · simp
    · simp [sendFailedLog]
    · simp [sendFailedLog]

/-- Witness for C8: a concrete connection-refused failure answers 500 with
the generic error text. -/
theorem C8_transport_failure_sanitised_witness :
    (sendOtpHandler devEnv ⟨"uuid-f", "t0", 0, 0, .fail "connect ECONNREFUSED" "stack" true⟩
        "r1" reqValid).1.status = 500 ∧
    bodyStr (sendOtpHandler devEnv ⟨"uuid-f", "t0", 0, 0, .fail "connect ECONNREFUSED" "stack" true⟩
        "r1" reqValid).1.body "error"
      = some "Failed to send verification email. Please try again." :=
  ⟨(C8_transport_failure_sanitised devEnv
      ⟨"uuid-f", "t0", 0, 0, .fail "connect ECONNREFUSED" "stack" true⟩
      ⟨"uuid-f", "t0", 0, 0, .fail "connect ECONNREFUSED" "stack" true⟩
      "r1" reqValid "connect ECONNREFUSED" "stack" "connect ECONNREFUSED" "stack"
      true true (by decide) rfl rfl rfl).1,
   (C8_transport_failure_sanitised devEnv
      ⟨"uuid-f", "t0", 0, 0, .fail "connect ECONNREFUSED" "stack" true⟩
      ⟨"uuid-f", "t0", 0, 0, .fail "connect ECONNREFUSED" "stack" true⟩
      "r1" reqValid "connect ECONNREFUSED" "stack" "connect ECONNREFUSED" "stack"
      true true (by decide) rfl rfl rfl).2.1⟩

/-- C9 counterexample: handling the request
`{"email":"user@example.com","otp":"12345"}` produces a warn-level
structured record whose serialised values include the submitted otp value
`"12345"` (the validation-failure log embeds each failing field's value). -/
theorem C9_invalid_otp_value_logged :
    (∃ r ∈ (handleRequest devEnv emptyStore 0 ext0 reqShortOtp).2.2,
      r.level = "warn" ∧ "12345" ∈ r.values) ∧
    reqShortOtp.otp = "12345" := by
  decide

/-- C9 as amended: the structured logs are identical for any two otp values
that pass validation (so a valid passcode never influences, and in
particular never appears in, the logs) on every path — while the
validation-failure warn record does embed an invalid submitted otp value;
the recipient email is logged at info level in the first record of every
send-path call. -/
theorem C9_logging_policy (env : Env) (ext : CallExt) (reqId : String)
    (req : Request) (o1 o2 : String)
    (h1 : otpFieldErrors o1 = []) (h2 : otpFieldErrors o2 = []) :
    (sendOtpHandler env ext reqId (withOtp req o1)).2
      = (sendOtpHandler env ext reqId (withOtp req o2)).2 ∧
    (sendOtpHandler env ext reqId req).2.head?
      = some (receivedLog reqId req.email req.ip req.userAgent) ∧
    (receivedLog reqId req.email req.ip req.userAgent).level = "info" ∧
    req.email ∈ (receivedLog reqId req.email req.ip req.userAgent).values := by
  refine ⟨?_, ?_, rfl, by simp [receivedLog]⟩
  · simp [sendOtpHandler, withOtp, errorDetails, h1, h2]
    by_cases he : emailFieldErrors req.email = [] <;> simp [he]
  · by_cases he : (errorDetails req.email req.otp).isEmpty
    · cases htr : ext.transport <;> simp [sendOtpHandler, he, htr]
    · simp [sendOtpHandler, he]

/-- Witness for C9 as amended: two different valid passcodes leave the same
log trail. -/
theorem C9_logging_policy_witness :
    (sendOtpHandler devEnv ext0 "r1" (withOtp reqValid "123456")).2
      = (sendOtpHandler devEnv ext0 "r1" (withOtp reqValid "000000")).2 :=
  (C9_logging_policy devEnv ext0 "r1" reqValid "123456" "000000"
    (by decide) (by decide)).1

end WalletLogs
